import Mathlib

/-!
Verification development for the TorchServeOnAWS workshop repository.

Part 1 embeds the two instructional notebooks
(`2_serving_natively_with_amazon_sagemaker/deploy.ipynb` and
`4_torchserve_byoc_with_amazon_sagemaker/Lab_04_gpu.ipynb`): each code
cell is a list of statements, classified by the kind of effect it has.

Part 2 models the local model-inference gateway that the specification
describes (Backend Registry, Request Router, Gateway Front Door).  The
repository ships no such implementation, so those definitions are
modelled from the specification text.
-/

namespace TorchServeOnAWS

/-- The kinds of statement that occur in the code cells of the two
notebooks.  `algorithmicDef` stands for a definition of original
algorithmic logic (a function or class body performing its own
computation); the faithful embedding below never uses it, which is
exactly what the claim about the absence of original logic asserts. -/
inductive Stmt where
  | importStmt (modules : List String)
  | shellCmd (cmd : String)
  | sdkAssign (lhs callee : String)
  | sdkCall (callee : String)
  | sdkClassWrapper (cls base : String)
  | assignLiteral (lhs : String)
  | assignNameFromBase (lhs base : String)
  | printStmt (text : String)
  | algorithmicDef (descr : String)
deriving DecidableEq, Repr

/-- How a cell's effect is classified by the specification: invoking an
external CLI, calling the third-party SDK, printing formatted strings,
defining original algorithmic logic, or pure setup (imports, literal
bindings). -/
inductive CellEffect where
  | invokesCLI
  | callsSDK
  | printsStrings
  | definesOriginalLogic
  | pureSetup
deriving DecidableEq, Repr

def stmtClass : Stmt → CellEffect
  | .importStmt _ => .pureSetup
  | .shellCmd _ => .invokesCLI
  | .sdkAssign _ _ => .callsSDK
  | .sdkCall _ => .callsSDK
  | .sdkClassWrapper _ _ => .callsSDK
  | .assignLiteral _ => .pureSetup
  | .assignNameFromBase _ _ => .callsSDK
  | .printStmt _ => .printsStrings
  | .algorithmicDef _ => .definesOriginalLogic

/-- The dominant effect of a cell: original logic would dominate,
then CLI invocation, then SDK calls, then printing. -/
def cellEffect (c : List Stmt) : CellEffect :=
  if c.any (fun s => stmtClass s == CellEffect.definesOriginalLogic) then .definesOriginalLogic
  else if c.any (fun s => stmtClass s == CellEffect.invokesCLI) then .invokesCLI
  else if c.any (fun s => stmtClass s == CellEffect.callsSDK) then .callsSDK
  else if c.any (fun s => stmtClass s == CellEffect.printsStrings) then .printsStrings
  else .pureSetup

/-- The twelve code cells of `deploy.ipynb`, in order. -/
def deployCells : List (List Stmt) :=
  [ [ .importStmt (["sagemaker", "sagemaker.utils", "sagemaker.pytorch",
        "sagemaker.predictor", "boto3"]),
      .sdkAssign ("region") ("boto3.Session().region_name"),
      .sdkAssign ("sm") ("boto3.Session().client"),
      .sdkAssign ("role") ("sagemaker.get_execution_role"),
      .assignLiteral ("model_artefact") ],
    [ .sdkClassWrapper ("SentimentAnalysis") ("RealTimePredictor"),
      .sdkAssign ("model") ("PyTorchModel") ],
    [ .assignNameFromBase ("endpoint_name") ("roberta-model"),
      .printStmt ("endpoint_name"),
      .sdkAssign ("predictor") ("model.deploy") ],
    [ .assignLiteral ("test_data"),
      .printStmt ("test_data") ],
    [ .sdkAssign ("prediction") ("predictor.predict") ],
    [ .printStmt ("Review text"), .printStmt ("Sentiment") ],
    [ .assignLiteral ("test_data"),
      .printStmt ("test_data") ],
    [ .sdkAssign ("prediction") ("predictor.predict") ],
    [ .printStmt ("Review text"), .printStmt ("Sentiment") ],
    [ .assignLiteral ("test_data"),
      .printStmt ("test_data") ],
    [ .sdkAssign ("prediction") ("predictor.predict") ],
    [ .printStmt ("Review text"), .printStmt ("Sentiment") ],
    [ .sdkCall ("sm.delete_endpoint") ] ]

/-- The fifteen code cells of `Lab_04_gpu.ipynb`, in order. -/
def labCells : List (List Stmt) :=
  [ [ .importStmt (["torch"]),
      .printStmt ("torch.cuda.is_available() & torch.cuda.device_count() > 0") ],
    [ .shellCmd ("chmod +x ./scripts/prerequisites.sh"),
      .shellCmd ("./scripts/prerequisites.sh") ],
    [ .shellCmd ("cd serve/docker"),
      .shellCmd ("docker build --file Dockerfile -t torchserve:gpu-latest .") ],
    [ .shellCmd ("cd serve/docker"),
      .shellCmd ("docker run -d --rm -it --name no_model_container --gpus all -p 8080:8080 -p 8081:8081 torchserve:gpu-latest") ],
    [ .shellCmd ("curl http://localhost:8080/ping") ],
    [ .shellCmd ("curl http://localhost:8081/models") ],
    [ .shellCmd ("docker stop no_model_container") ],
    [ .shellCmd ("cd serve/docker"),
      .shellCmd ("./build_image.sh -b master -g") ],
    [ .shellCmd ("cp ./scripts/start_densenet.sh ./serve/docker/."),
      .shellCmd ("chmod +x serve/docker/start_densenet.sh") ],
    [ .shellCmd ("serve/docker/start_densenet.sh --gpu") ],
    [ .shellCmd ("curl http://localhost:8081/models") ],
    [ .shellCmd ("curl -O https://torchserve-workshop.s3.amazonaws.com/proboscis-monkey.jpg"),
      .shellCmd ("curl -O https://torchserve-workshop.s3.amazonaws.com/tiger-beetle.jpg") ],
    [ .shellCmd ("curl -X POST http://localhost:8080/predictions/densenet161 -T proboscis-monkey.jpg"),
      .shellCmd ("curl -X POST http://localhost:8080/predictions/densenet161 -T tiger-beetle.jpg") ],
    [ .shellCmd ("docker container stop torchserve_container") ],
    [ .shellCmd ("chmod +x ./scripts/cleanup.sh"),
      .shellCmd ("./scripts/cleanup.sh") ] ]

/-- All code cells of the repository, in notebook order. -/
def allCells : List (List Stmt) := deployCells ++ labCells

/-! ## The CUDA check cell of Lab_04_gpu.ipynb

The first code cell prints `torch.cuda.is_available() & torch.cuda.device_count() > 0`.
Python gives `&` a higher precedence than `>`, and `True` coerces to the
integer 1 under `&`, so the expression evaluates as
`(int(is_available()) & device_count()) > 0`. -/

/-- Python coerces a `bool` operand of the bitwise `&` to an integer. -/
def pyBoolToInt (b : Bool) : Nat := if b then 1 else 0

/-- The printed expression as Python actually parses and evaluates it:
`(is_available() & device_count()) > 0`, with the bitwise `&` applied
to the coerced boolean and the device count. -/
def cudaCheckAsParsed (avail : Bool) (count : Nat) : Bool :=
  decide (pyBoolToInt avail &&& count > 0)

/-- The reading the surrounding notebook text intends: CUDA is available
and there is at least one device. -/
def cudaCheckIntended (avail : Bool) (count : Nat) : Bool :=
  avail && decide (count > 0)

/-! ## The local model-inference gateway

Modelled from the spec: the repository contains no gateway implementation
(the spec itself says the source is "narration, not an implementation"),
so every definition in this section follows the specification text of
sections 3, 4, 6 and 7. -/

/-- Modelled from the spec: the state of a `ModelEntry`
(`Unregistered | Loading | Healthy | Degraded | Unloading`). -/
inductive ModelState where
  | Unregistered
  | Loading
  | Healthy
  | Degraded
  | Unloading
deriving DecidableEq, Repr

/-- Modelled from the spec: a `ModelEntry` record of the Backend Registry:
name (unique key), artifact location, desired instance count, current state. -/
structure ModelEntry where
  name : String
  artifact : String
  instanceCount : Nat
  state : ModelState
deriving DecidableEq, Repr

/-- Modelled from the spec: the gateway error taxonomy of section 7. -/
inductive GatewayError where
  | DuplicateModel
  | NotFound
  | Overloaded
  | Timeout
  | BackendCrashed
  | BackendError
  | Internal
deriving DecidableEq, Repr

/-- Modelled from the spec: the Backend Registry, a table of `ModelEntry`
records keyed by model name. -/
structure Registry where
  models : List ModelEntry
deriving DecidableEq, Repr

def Registry.empty : Registry := ⟨[]⟩

/-- Modelled from the spec: `lookup(name) -> ModelEntry or Error(NotFound)`. -/
def Registry.lookup (r : Registry) (n : String) : Option ModelEntry :=
  r.models.find? (fun e => e.name == n)

/-- Modelled from the spec:
`register(name, artifactRef, instanceCount) -> ModelEntry or Error(DuplicateModel)`.
Re-registering a present name fails fast rather than silently overwriting;
a fresh entry starts in state `Loading`. -/
def Registry.register (r : Registry) (n a : String) (k : Nat) :
    Except GatewayError (ModelEntry × Registry) :=
  match r.lookup n with
  | some _ => .error .DuplicateModel
  | none =>
      let e : ModelEntry := ⟨n, a, k, .Loading⟩
      .ok (e, ⟨r.models ++ [e]⟩)

/-- Modelled from the spec: `unregister(name) -> ok or Error(NotFound)`. -/
def Registry.unregister (r : Registry) (n : String) : Except GatewayError Registry :=
  if r.models.any (fun e => e.name == n) then
    .ok ⟨r.models.filter (fun e => e.name != n)⟩
  else .error .NotFound

/-- Modelled from the spec: `list() -> sequence of ModelEntry`. -/
def Registry.listModels (r : Registry) : List ModelEntry := r.models

/-- A register or unregister call against the Registry. -/
inductive RegOp where
  | registerOp (n a : String) (k : Nat)
  | unregisterOp (n : String)

/-- Apply one call; a failed call leaves the Registry unchanged. -/
def applyOp (r : Registry) : RegOp → Registry
  | .registerOp n a k =>
      match r.register n a k with
      | .ok (_, r2) => r2
      | .error _ => r
  | .unregisterOp n =>
      match r.unregister n with
      | .ok r2 => r2
      | .error _ => r

/-- The Registry reached from empty by a sequence of register/unregister calls. -/
def applyOps (ops : List RegOp) : Registry :=
  ops.foldl applyOp Registry.empty

/-- Modelled from the spec: HTTP status codes of the management and
inference APIs (`409 Conflict`, `404`, `503` on Overloaded, `504` on
Timeout). -/
def httpOfError : GatewayError → Nat
  | .DuplicateModel => 409
  | .NotFound => 404
  | .Overloaded => 503
  | .Timeout => 504
  | _ => 500

/-- Modelled from the spec: `POST /models` at the Front Door delegates to
`Registry.register` and answers `201` or `409 Conflict`, leaving the
Registry untouched on failure. -/
def postModels (r : Registry) (n a : String) (k : Nat) : Nat × Registry :=
  match r.register n a k with
  | .ok (_, r2) => (201, r2)
  | .error e => (httpOfError e, r)

/-- Modelled from the spec: aggregate health answered by `GET /ping`. -/
inductive HealthStatus where
  | Healthy
  | Degraded
deriving DecidableEq, Repr

/-- Modelled from the spec: `GET /ping` → `Healthy` if at least one model
is Healthy or no models are registered; else `Degraded`. -/
def ping (r : Registry) : HealthStatus :=
  if r.models.isEmpty || r.models.any (fun e => e.state == ModelState.Healthy) then
    .Healthy
  else .Degraded

/-- Modelled from the spec: the state of a `WorkerInstance`
(`Starting | Ready | Busy | Draining | Dead`). -/
inductive WorkerState where
  | Starting
  | Ready
  | Busy
  | Draining
  | Dead
deriving DecidableEq, Repr

/-- Modelled from the spec: a `WorkerInstance` record (model name
back-reference, in-flight request count, state); the process handle is
owned by the Supervisor and never seen by the Router. -/
structure WorkerInstance where
  modelName : String
  inFlight : Nat
  state : WorkerState
deriving DecidableEq, Repr

/-- Modelled from the spec: a `PendingRequest` (request id, target model
name, payload, arrival time, deadline). -/
structure PendingRequest where
  rid : Nat
  model : String
  payload : String
  arrival : Nat
  deadline : Nat
deriving DecidableEq, Repr

/-- Modelled from the spec: a model's bounded Router queue. -/
structure ModelQueue where
  depth : Nat
  pending : List PendingRequest
deriving DecidableEq, Repr

/-- The `Ready` workers serving a given model. -/
def readyWorkers (ws : List WorkerInstance) (m : String) : List WorkerInstance :=
  ws.filter (fun w => w.modelName == m && w.state == WorkerState.Ready)

/-- Modelled from the spec: least-in-flight selection among `Ready`
instances (load spreading). -/
def pickLeastInFlight : List WorkerInstance → Option WorkerInstance
  | [] => none
  | w :: ws => some (ws.foldl (fun best x => if x.inFlight < best.inFlight then x else best) w)

/-- The Router's immediate decision on an arriving prediction request. -/
inductive AdmitDecision where
  | dispatched (w : WorkerInstance)
  | queuedUp
  | rejected (e : GatewayError)
deriving DecidableEq, Repr

/-- Modelled from the spec: the Router admits a request by selecting a
`Ready` worker; if none is `Ready` it queues the request up to the
model's bounded queue depth, and queue overflow fails immediately with
`Error(Overloaded)` rather than growing unboundedly. -/
def routerAdmit (ws : List WorkerInstance) (q : ModelQueue) (req : PendingRequest) :
    AdmitDecision × ModelQueue :=
  match pickLeastInFlight (readyWorkers ws req.model) with
  | some w => (.dispatched w, q)
  | none =>
      if q.pending.length < q.depth then
        (.queuedUp, { q with pending := q.pending ++ [req] })
      else
        (.rejected .Overloaded, q)

/-- Where a pending request stands when its deadline elapses. -/
inductive ReqPhase where
  | queuedPhase
  | inFlightOn (workerId : Nat)
deriving DecidableEq, Repr

/-- What the Router does when a deadline elapses: the error reported, the
HTTP status, and the backend call to cancel, if any. -/
structure ExpiryAction where
  failure : GatewayError
  http : Nat
  cancelSignal : Option Nat
deriving DecidableEq, Repr

/-- Modelled from the spec: if the deadline elapses while queued or
in-flight, the request is failed with `Error(Timeout)` (HTTP `504`) and,
if already dispatched, the Router signals cancellation to the backend call. -/
def onDeadlineElapsed : ReqPhase → ExpiryAction
  | .queuedPhase => ⟨.Timeout, httpOfError .Timeout, none⟩
  | .inFlightOn w => ⟨.Timeout, httpOfError .Timeout, some w⟩

/-- What the external backend returns for one delivered call. -/
inductive BackendResult where
  | ok (body : String)
  | modelError
  | crashed
deriving DecidableEq, Repr

/-- The final outcome of one accepted request. -/
inductive Outcome where
  | success (body : String)
  | failed (e : GatewayError)
deriving DecidableEq, Repr

/-- Modelled from the spec: `BackendCrashed` is absorbed by the Supervisor
and converted to `Overloaded`/`Timeout` for any request in flight on the
dead instance — the caller never sees a raw process-crash signal. -/
def translateBackend (res : BackendResult) (withinDeadline : Bool) : Outcome :=
  match res with
  | .ok body => .success body
  | .modelError => .failed .BackendError
  | .crashed => if withinDeadline then .failed .Overloaded else .failed .Timeout

/-- What becomes of a request that had to wait in the model queue:
either a worker turns `Ready` before the deadline, or the deadline
elapses first. -/
inductive QueueFate where
  | workerFreed (w : WorkerInstance)
  | deadlineElapsed
deriving Repr

/-- The environment one prediction request runs against: the Registry,
the worker pool, the target model's queue, the backend's answer to a
delivered call, whether the answer lands within the deadline, and the
fate of a queue wait. -/
structure RouterEnv where
  registry : Registry
  workers : List WorkerInstance
  queue : ModelQueue
  backendAnswer : WorkerInstance → BackendResult
  withinDeadline : Bool
  fate : QueueFate

/-- Modelled from the spec: end-to-end processing of one accepted
prediction request (`POST /predictions/{name}`), returning its outcome
together with the number of times it was delivered to a backend.
Unknown model → `NotFound`; no `Ready` worker and full queue →
`Overloaded`; deadline elapsing in the queue → `Timeout` with no
delivery; otherwise exactly one delivery whose result is translated. -/
def processRequest (env : RouterEnv) (req : PendingRequest) : Outcome × Nat :=
  match env.registry.lookup req.model with
  | none => (.failed .NotFound, 0)
  | some _ =>
      match pickLeastInFlight (readyWorkers env.workers req.model) with
      | some w => (translateBackend (env.backendAnswer w) env.withinDeadline, 1)
      | none =>
          if env.queue.pending.length < env.queue.depth then
            match env.fate with
            | .workerFreed w => (translateBackend (env.backendAnswer w) env.withinDeadline, 1)
            | .deadlineElapsed => (.failed .Timeout, 0)
          else
            (.failed .Overloaded, 0)

/-- The outcomes the spec allows an accepted request to complete with:
success, `Overloaded`, `Timeout`, `NotFound` or `BackendError` — no raw
`BackendCrashed`, no `DuplicateModel`, no `Internal`. -/
def allowedOutcome : Outcome → Bool
  | .success _ => true
  | .failed .Overloaded => true
  | .failed .Timeout => true
  | .failed .NotFound => true
  | .failed .BackendError => true
  | .failed _ => false

/-! ## Name dataflow of deploy.ipynb

`name_from_base` (an SDK utility) appends a fresh time-derived suffix to
its base string, so two calls generally yield different names.  The
notebook calls it twice: once for the `PyTorchModel`'s own `name=` and
once for `endpoint_name`; `endpoint_name` is then passed unchanged to
both `model.deploy(..., endpoint_name=endpoint_name)` and
`sm.delete_endpoint(EndpointName=endpoint_name)`. -/

/-- `name_from_base` as used by the notebook: base plus a unique suffix. -/
def name_from_base (base suffix : String) : String := base ++ "-" ++ suffix

/-- One execution of `deploy.ipynb`: the suffixes the two
`name_from_base("roberta-model")` calls draw. -/
structure DeployRun where
  modelSuffix : String
  endpointSuffix : String

/-- The `PyTorchModel`'s own name: `name=name_from_base("roberta-model")`
in the model-construction cell. -/
def DeployRun.pyTorchModelName (run : DeployRun) : String :=
  name_from_base ("roberta-model") run.modelSuffix

/-- The value bound once to `endpoint_name` in the deploy cell. -/
def DeployRun.endpointName (run : DeployRun) : String :=
  name_from_base ("roberta-model") run.endpointSuffix

/-- The endpoint name the deploy cell passes:
`model.deploy(..., endpoint_name=endpoint_name)`. -/
def DeployRun.deployedEndpoint (run : DeployRun) : String :=
  run.endpointName

/-- The endpoint name the cleanup cell passes:
`sm.delete_endpoint(EndpointName=endpoint_name)`. -/
def DeployRun.deletedEndpoint (run : DeployRun) : String :=
  run.endpointName

/-- Does a statement define original algorithmic logic? -/
def introducesOriginalLogic : Stmt → Bool
  | .algorithmicDef _ => true
  | _ => false

/-- Is a cell effect one of the three external kinds the spec lists? -/
def externalEffect : CellEffect → Bool
  | .invokesCLI => true
  | .callsSDK => true
  | .printsStrings => true
  | _ => false

/-- The names of the entries held by a Registry. -/
def Registry.names (r : Registry) : List String := r.models.map ModelEntry.name

theorem lookup_none_not_mem (r : Registry) (n : String)
    (h : r.lookup n = none) : n ∉ r.names := by
  intro hmem
  simp only [Registry.names, List.mem_map] at hmem
  obtain ⟨e, he, hname⟩ := hmem
  have hne := List.find?_eq_none.mp h e he
  simp [hname] at hne

theorem applyOp_preserves_nodup (r : Registry) (op : RegOp)
    (h : r.names.Nodup) : (applyOp r op).names.Nodup := by
  cases op with
  | registerOp n a k =>
      cases hl : r.lookup n with
      | some e =>
          simp only [applyOp, Registry.register, hl]
          exact h
      | none =>
          have hn : n ∉ r.names := lookup_none_not_mem r n hl
          simp only [applyOp, Registry.register, hl]
          simp only [Registry.names, List.map_append, List.map_cons, List.map_nil] at h ⊢
          rw [List.nodup_append]
          refine ⟨h, List.nodup_singleton n, ?_⟩
          intro x hx hx2
          simp only [List.mem_singleton] at hx2
          exact hn (hx2 ▸ hx)
  | unregisterOp n =>
      by_cases hc : r.models.any (fun e => e.name == n)
      · simp only [applyOp, Registry.unregister, hc, if_pos]
        have hsub : ((r.models.filter (fun e => e.name != n)).map ModelEntry.name).Sublist
            (r.models.map ModelEntry.name) :=
          (List.filter_sublist r.models).map ModelEntry.name
        exact h.sublist hsub
      · simp only [applyOp, Registry.unregister, hc, if_neg, Bool.false_eq_true,
          not_false_eq_true]
        exact h

/-- C1: every code cell of the two notebooks has an effect that is one of
invoking an external CLI, calling the third-party SDK, or printing
formatted strings, and no cell introduces original algorithmic logic —
the `SentimentAnalysis` class is a delegating wrapper around an SDK
predictor class (classified `callsSDK`) and the `torch.cuda` check cell
prints a formatted string (classified `printsStrings`). -/
theorem notebook_cells_only_external_effects :
    (allCells.all (fun c => externalEffect (cellEffect c))
      && allCells.all (fun c => c.all (fun s => !introducesOriginalLogic s))) = true := by
  decide

/-- C2: the printed expression of the first Lab_04_gpu.ipynb cell,
evaluated the way Python parses it — `(is_available() & device_count()) > 0`
with the boolean coerced to an integer — is `false` whenever CUDA is
available and the device count is a positive even integer, while the
intended conjunction is `true` there. -/
theorem cuda_check_even_count_prints_false (n : Nat)
    (hpos : 0 < n) (heven : n % 2 = 0) :
    cudaCheckAsParsed true n = false ∧ cudaCheckIntended true n = true := by
  constructor
  · have h1 : 1 &&& n = n % 2 := by
      rw [Nat.land_comm]
      exact Nat.and_one_is_mod n
    simp [cudaCheckAsParsed, pyBoolToInt, h1, heven]
  · simp [cudaCheckIntended, hpos]

theorem cuda_check_even_count_prints_false_witness :
    0 < 2 ∧ 2 % 2 = 0 ∧
      (cudaCheckAsParsed true 2 = false ∧ cudaCheckIntended true 2 = true) :=
  ⟨by decide, by decide, cuda_check_even_count_prints_false 2 (by decide) (by decide)⟩

/-- C3: for every finite sequence of register and unregister calls
starting from the empty Backend Registry, the resulting Registry never
holds two `ModelEntry` records with the same name. -/
theorem registry_never_two_entries_same_name (ops : List RegOp) :
    (applyOps ops).names.Nodup := by
  suffices h : ∀ r : Registry, r.names.Nodup → ((ops.foldl applyOp r)).names.Nodup by
    exact h Registry.empty (by simp [Registry.empty, Registry.names])
  induction ops with
  | nil => intro r h; simpa using h
  | cons op rest ih =>
      intro r h
      exact ih (applyOp r op) (applyOp_preserves_nodup r op h)

/-- C4: registering a name the Registry already holds returns
`Error(DuplicateModel)`, surfaces as HTTP 409 at `POST /models`, and
leaves the Registry — in particular the existing entry and its artifact
location — unchanged. -/
theorem register_duplicate_fails_and_preserves (r : Registry) (n a : String) (k : Nat)
    (e : ModelEntry) (h : r.lookup n = some e) :
    r.register n a k = .error .DuplicateModel ∧
    postModels r n a k = (409, r) ∧
    (postModels r n a k).2.lookup n = some e ∧
    ((postModels r n a k).2.lookup n).map ModelEntry.artifact = some e.artifact := by
  have hreg : r.register n a k = .error .DuplicateModel := by
    unfold Registry.register
    rw [h]
  refine ⟨hreg, ?_, ?_, ?_⟩ <;> simp [postModels, hreg, httpOfError, h]

theorem register_duplicate_fails_and_preserves_witness :
    (Registry.mk [⟨"m1", "s3a", 1, ModelState.Loading⟩]).lookup "m1" =
        some ⟨"m1", "s3a", 1, ModelState.Loading⟩ ∧
      ((Registry.mk [⟨"m1", "s3a", 1, ModelState.Loading⟩]).register "m1" "s3b" 2 =
          .error .DuplicateModel ∧
        postModels (Registry.mk [⟨"m1", "s3a", 1, ModelState.Loading⟩]) "m1" "s3b" 2 =
          (409, Registry.mk [⟨"m1", "s3a", 1, ModelState.Loading⟩]) ∧
        (postModels (Registry.mk [⟨"m1", "s3a", 1, ModelState.Loading⟩]) "m1" "s3b" 2).2.lookup "m1" =
          some ⟨"m1", "s3a", 1, ModelState.Loading⟩ ∧
        ((postModels (Registry.mk [⟨"m1", "s3a", 1, ModelState.Loading⟩]) "m1" "s3b" 2).2.lookup "m1").map
            ModelEntry.artifact = some "s3a") :=
  ⟨by decide,
    register_duplicate_fails_and_preserves (Registry.mk [⟨"m1", "s3a", 1, ModelState.Loading⟩])
      "m1" "s3b" 2 ⟨"m1", "s3a", 1, ModelState.Loading⟩ (by decide)⟩

/-- C5: `GET /ping` answers `Healthy` exactly when some registered model
is Healthy or no models are registered at all, answers only `Healthy` or
`Degraded`, and a freshly started gateway with zero models reports
`Healthy`. -/
theorem ping_healthy_iff (r : Registry) :
    (ping r = .Healthy ↔ (∃ e ∈ r.models, e.state = ModelState.Healthy) ∨ r.models = [])
    ∧ ping Registry.empty = .Healthy
    ∧ (ping r = .Healthy ∨ ping r = .Degraded) := by
  refine ⟨?_, rfl, ?_⟩
  · constructor
    · intro hping
      by_contra hcon
      push_neg at hcon
      obtain ⟨hnone, hne⟩ := hcon
      have hcond : ¬ (r.models.isEmpty ||
          r.models.any (fun e => e.state == ModelState.Healthy)) = true := by
        simp only [Bool.or_eq_true, List.isEmpty_iff, List.any_eq_true, beq_iff_eq,
          not_or, not_exists]
        exact ⟨hne, fun e hconj => hnone e hconj.1 hconj.2⟩
      unfold ping at hping
      rw [if_neg hcond] at hping
      cases hping
    · intro hor
      have hcond : (r.models.isEmpty ||
          r.models.any (fun e => e.state == ModelState.Healthy)) = true := by
        rcases hor with ⟨e, hmem, hst⟩ | hnil
        · simp only [Bool.or_eq_true, List.any_eq_true, beq_iff_eq]
          exact Or.inr ⟨e, hmem, hst⟩
        · simp [hnil]
      unfold ping
      rw [if_pos hcond]
  · unfold ping
    by_cases hcond : (r.models.isEmpty ||
        r.models.any (fun e => e.state == ModelState.Healthy)) = true
    · rw [if_pos hcond]; exact Or.inl rfl
    · rw [if_neg hcond]; exact Or.inr rfl

/-- C6: when no worker is `Ready` for the target model and the model
queue already holds its bounded depth, the Router rejects the request
with `Error(Overloaded)` (HTTP 503) and leaves the queue untouched; and
after any admission the queue length never exceeds its bound. -/
theorem queue_full_rejected_overloaded (ws : List WorkerInstance) (q : ModelQueue)
    (req : PendingRequest)
    (hready : readyWorkers ws req.model = [])
    (hfull : q.depth ≤ q.pending.length) :
    routerAdmit ws q req = (.rejected .Overloaded, q) ∧
    httpOfError .Overloaded = 503 ∧
    ∀ ws2 q2 req2, q2.pending.length ≤ q2.depth →
      (routerAdmit ws2 q2 req2).2.pending.length ≤ q2.depth := by
  refine ⟨?_, rfl, ?_⟩
  · unfold routerAdmit
    rw [hready]
    simp only [pickLeastInFlight]
    rw [if_neg (by omega)]
  · intro ws2 q2 req2 hle
    unfold routerAdmit
    cases pickLeastInFlight (readyWorkers ws2 req2.model) with
    | some w => exact hle
    | none =>
        by_cases hlt : q2.pending.length < q2.depth
        · simp only [if_pos hlt, List.length_append, List.length_cons, List.length_nil]
          omega
        · simp only [if_neg hlt]
          exact hle

theorem queue_full_rejected_overloaded_witness :
    readyWorkers [] (PendingRequest.mk 1 "m1" "p" 0 10).model = [] ∧
    (ModelQueue.mk 0 []).depth ≤ (ModelQueue.mk 0 []).pending.length ∧
    (routerAdmit [] (ModelQueue.mk 0 []) (PendingRequest.mk 1 "m1" "p" 0 10) =
        (.rejected .Overloaded, ModelQueue.mk 0 []) ∧
      httpOfError .Overloaded = 503 ∧
      ∀ ws2 q2 req2, q2.pending.length ≤ q2.depth →
        (routerAdmit ws2 q2 req2).2.pending.length ≤ q2.depth) :=
  ⟨rfl, by decide,
    queue_full_rejected_overloaded [] (ModelQueue.mk 0 []) (PendingRequest.mk 1 "m1" "p" 0 10)
      rfl (by decide)⟩

/-- C7: when a pending request's deadline elapses the Router fails it
with `Error(Timeout)` (HTTP 504) whether queued or in flight, and if it
was already dispatched the Router signals cancellation to exactly that
backend call; a queued request triggers no cancellation signal. -/
theorem deadline_elapsed_times_out_and_cancels :
    (∀ w, onDeadlineElapsed (.inFlightOn w) = ⟨.Timeout, 504, some w⟩)
    ∧ onDeadlineElapsed .queuedPhase = ⟨.Timeout, 504, none⟩
    ∧ ∀ p, (onDeadlineElapsed p).failure = .Timeout ∧ (onDeadlineElapsed p).http = 504 := by
  refine ⟨fun w => rfl, rfl, fun p => ?_⟩
  cases p <;> exact ⟨rfl, rfl⟩

theorem allowed_translateBackend (res : BackendResult) (b : Bool) :
    allowedOutcome (translateBackend res b) = true := by
  cases res <;> cases b <;> rfl

/-- C8: every accepted prediction request completes with exactly one
outcome drawn from {success, Overloaded, Timeout, NotFound,
BackendError} — `processRequest` is a total function into a single
`Outcome`, so no request is silently dropped, a raw `BackendCrashed` is
never surfaced — and the request is delivered to a backend at most once. -/
theorem request_single_outcome_single_delivery (env : RouterEnv) (req : PendingRequest) :
    allowedOutcome (processRequest env req).1 = true ∧
    (processRequest env req).2 ≤ 1 := by
  unfold processRequest
  cases env.registry.lookup req.model with
  | none => exact ⟨rfl, Nat.zero_le 1⟩
  | some e =>
      cases pickLeastInFlight (readyWorkers env.workers req.model) with
      | some w => exact ⟨allowed_translateBackend _ _, le_refl 1⟩
      | none =>
          by_cases hlt : env.queue.pending.length < env.queue.depth
          · simp only [if_pos hlt]
            cases env.fate with
            | workerFreed w => exact ⟨allowed_translateBackend _ _, le_refl 1⟩
            | deadlineElapsed => exact ⟨rfl, Nat.zero_le 1⟩
          · simp only [if_neg hlt]
            exact ⟨rfl, Nat.zero_le 1⟩

/-- C9: whenever `register(m, ...)` succeeds, the returned entry appears
in an immediately following `list()` under the registered name, in state
`Loading` — which is `Loading` or later, never `Unregistered` and never
absent. -/
theorem register_then_list_includes_loading (r r2 : Registry) (n a : String) (k : Nat)
    (e : ModelEntry) (h : r.register n a k = .ok (e, r2)) :
    e ∈ r2.listModels ∧ e.name = n ∧ e.state = ModelState.Loading ∧
    e.state ≠ ModelState.Unregistered ∧
    e.state ∈ [ModelState.Loading, ModelState.Healthy, ModelState.Degraded,
      ModelState.Unloading] := by
  unfold Registry.register at h
  cases hl : r.lookup n with
  | some x => rw [hl] at h; cases h
  | none =>
      rw [hl] at h
      simp only [Except.ok.injEq, Prod.mk.injEq] at h
      obtain ⟨he, hr2⟩ := h
      subst he
      subst hr2
      refine ⟨?_, rfl, rfl, by simp, by simp⟩
      simp [Registry.listModels]

theorem register_then_list_includes_loading_witness :
    Registry.empty.register "m1" "s3a" 1 =
        .ok (⟨"m1", "s3a", 1, ModelState.Loading⟩,
          Registry.mk [⟨"m1", "s3a", 1, ModelState.Loading⟩]) ∧
      ((⟨"m1", "s3a", 1, ModelState.Loading⟩ : ModelEntry) ∈
          (Registry.mk [⟨"m1", "s3a", 1, ModelState.Loading⟩]).listModels ∧
        (ModelEntry.mk "m1" "s3a" 1 ModelState.Loading).name = "m1" ∧
        (ModelEntry.mk "m1" "s3a" 1 ModelState.Loading).state = ModelState.Loading ∧
        (ModelEntry.mk "m1" "s3a" 1 ModelState.Loading).state ≠ ModelState.Unregistered ∧
        (ModelEntry.mk "m1" "s3a" 1 ModelState.Loading).state ∈
          [ModelState.Loading, ModelState.Healthy, ModelState.Degraded,
            ModelState.Unloading]) :=
  ⟨rfl,
    register_then_list_includes_loading Registry.empty
      (Registry.mk [⟨"m1", "s3a", 1, ModelState.Loading⟩]) "m1" "s3a" 1
      ⟨"m1", "s3a", 1, ModelState.Loading⟩ rfl⟩

/-- C10: the value bound once to `endpoint_name` is passed unchanged to
both `model.deploy` and `sm.delete_endpoint`, so the cleanup cell
deletes exactly the endpoint the deploy cell created, while the
`PyTorchModel`'s own name comes from an independent
`name_from_base("roberta-model")` call and is not constrained to equal
the endpoint name. -/
theorem endpoint_delete_matches_deploy :
    (∀ run : DeployRun, run.deployedEndpoint = run.deletedEndpoint)
    ∧ (∀ run : DeployRun,
        run.pyTorchModelName = name_from_base ("roberta-model") run.modelSuffix ∧
        run.endpointName = name_from_base ("roberta-model") run.endpointSuffix)
    ∧ (∃ run : DeployRun, run.pyTorchModelName ≠ run.endpointName) :=
  ⟨fun run => rfl, fun run => ⟨rfl, rfl⟩, ⟨⟨"a", "b"⟩, by decide⟩⟩

end TorchServeOnAWS
